import Mathlib

/-!
Verification of the rf-api-websocket dispatch engine (shallow embedding).

The embedding follows the current revision of the module (src/unnamed/part_002):
the WebsocketServer dispatcher (onMessage, _sendErrorMessage, sendObj, broadcast,
onClose), the WebsocketRequest response channel (send), and the two handler kinds
(CallbackHandler, PromiseHandler).

Modelling conventions:
* JavaScript values are modelled by the inductive JsVal; JSON numbers are
  restricted to integers (no claim depends on float behaviour).
* A JS object is an association list (Obj).  Property read on a missing key
  yields vUndefined, as in JS.  JSON.parse output has unique keys and no
  vUndefined values; claims assume this where it matters.
* JSON.stringify drops top-level properties whose value is undefined; the
  function wire models this (nested values are passed through unchanged, no
  claim inspects them).
* Effects (transport sends, log lines, ACL-gate checks, handler invocations)
  are recorded in an event trace.  Log text is abbreviated to stable tags;
  no claim depends on the exact log wording.
* Transport failure of ws.send is modelled by a predicate sf : Nat → Bool on
  connection ids (true = ws.send throws); sendObj catches the throw and logs,
  as in the source.
* A handler callback supplied by the application is modelled by its observable
  behaviour: the list of send-calls it performs (in order) and an optional
  synchronously thrown exception value.
* The registry this.handlers is a plain JS object, so the read
  this.handlers[func] consults the Object.prototype chain: an unregistered
  func naming an inherited property (toString, constructor, __proto__, ...)
  yields a truthy non-handler value; lookupHandler models this three-way
  outcome (registered / inherited / missing).
-/

namespace RfApiWebsocket

/-- A JavaScript value (JSON values plus undefined). -/
inductive JsVal : Type where
  | vNull : JsVal
  | vUndefined : JsVal
  | vBool : Bool → JsVal
  | vNum : Int → JsVal
  | vStr : String → JsVal
  | vArr : List JsVal → JsVal
  | vObj : List (String × JsVal) → JsVal

/-- A JS object at the envelope level: an association list of properties. -/
abbrev Obj := List (String × JsVal)

/-- Property read: first binding wins, missing key yields undefined (JS semantics). -/
def lookupKey : Obj → String → JsVal
  | [], _ => .vUndefined
  | p :: rest, k => if p.1 = k then p.2 else lookupKey rest k

/-- Property write: replace the first binding of the key, or append (JS assignment). -/
def setKey : Obj → String → JsVal → Obj
  | [], k, v => [(k, v)]
  | p :: rest, k, v => if p.1 = k then (k, v) :: rest else p :: setKey rest k v

/-- The JS delete operator: remove every binding of the key. -/
def delKey : Obj → String → Obj
  | [], _ => []
  | p :: rest, k => if p.1 = k then delKey rest k else p :: delKey rest k

/-- Is this value the undefined value? -/
def isUndef : JsVal → Bool
  | .vUndefined => true
  | _ => false

/-- lodash isNil: null or undefined. -/
def isNil : JsVal → Bool
  | .vNull => true
  | .vUndefined => true
  | _ => false

/-- JS truthiness (no NaN: numbers are modelled as integers). -/
def truthy : JsVal → Bool
  | .vNull => false
  | .vUndefined => false
  | .vBool b => b
  | .vNum n => n != 0
  | .vStr s => s != ""
  | _ => true

/-- The JS logical-or a || b. -/
def jsOr (a b : JsVal) : JsVal := if truthy a then a else b

/-- Key membership test. -/
def hasKey : Obj → String → Bool
  | [], _ => false
  | p :: rest, k => if p.1 = k then true else hasKey rest k

/-- True when no binding uses the key "token". -/
def tokenFree : Obj → Bool
  | [] => true
  | p :: rest => if p.1 = "token" then false else tokenFree rest

/-- True when no top-level value is undefined (true of all JSON.parse output). -/
def noUndef : Obj → Bool
  | [] => true
  | p :: rest => !isUndef p.2 && noUndef rest

/-- True when keys are pairwise distinct (true of all JSON.parse output). -/
def nodupKeys : Obj → Bool
  | [] => true
  | p :: rest => !hasKey rest p.1 && nodupKeys rest

/-- JSON.stringify at the top level of the envelope: properties whose value is
undefined are dropped from the wire form. -/
def wire : Obj → Obj
  | [] => []
  | p :: rest => if isUndef p.2 then wire rest else p :: wire rest

mutual
/-- JS ToString, as used by template literals and property keys. -/
def jsToString : JsVal → String
  | .vNull => "null"
  | .vUndefined => "undefined"
  | .vBool b => if b then "true" else "false"
  | .vNum n => toString n
  | .vStr s => s
  | .vObj _ => "[object Object]"
  | .vArr es => arrToString es

/-- Array.prototype.toString: elements joined by commas, null/undefined as empty. -/
def arrToString : List JsVal → String
  | [] => ""
  | [e] => elemToString e
  | e :: rest => elemToString e ++ "," ++ arrToString rest

/-- One array element inside Array.prototype.toString. -/
def elemToString : JsVal → String
  | .vNull => ""
  | .vUndefined => ""
  | .vBool b => if b then "true" else "false"
  | .vNum n => toString n
  | .vStr s => s
  | .vObj _ => "[object Object]"
  | .vArr es => arrToString es
end

/-- Observable events of the dispatcher: successful transport sends (wire form),
logged transport failures, log lines (tags), ACL gate checks, and the call sites
of handler.handle and of a promise factory. -/
inductive Event : Type where
  | wsSend : Nat → Obj → Event
  | sendFailLog : Nat → Event
  | logError : String → Event
  | logInfo : String → Event
  | aclChecked : JsVal → JsVal → Event
  | handlerInvoked : String → Event
  | factoryInvoked : String → Event

/-- WebsocketServer.sendObj (part_002 lines 171-177): stringify and send;
a throwing ws.send is caught and logged, never propagated. -/
def sendObjEvents (sf : Nat → Bool) (ws : Nat) (obj : Obj) : List Event :=
  if sf ws then [.sendFailLog ws] else [.wsSend ws (wire obj)]

/-- The object built by WebsocketServer._sendErrorMessage (part_002 lines 67-73):
the inbound msg itself, with data deleted and err/errsrc assigned.
Note: token is NOT removed here. -/
def errorReplyObj (msg : Obj) (err : JsVal) (errsrc : String) : Obj :=
  setKey (setKey (delKey msg "data") "err" err) "errsrc" (.vStr errsrc)

/-- WebsocketServer._sendErrorMessage: build the error reply and sendObj it. -/
def sendErrorMessage (sf : Nat → Bool) (ws : Nat) (msg : Obj) (err : JsVal)
    (errsrc : String) : List Event :=
  sendObjEvents sf ws (errorReplyObj msg err errsrc)

/-- Arguments of one WebsocketRequest.send call; an omitted argument is
vUndefined (JS default parameters fire on undefined). -/
structure SendArgs : Type where
  err : JsVal
  dataArg : JsVal
  errsrcArg : JsVal

/-- The per-message request/response object (part_002 class WebsocketRequest).
sendResponse is always the dispatcher closure response => sendObj(ws, response),
so it is represented by the (sf, ws) parameters at the call sites. -/
structure WebsocketRequest : Type where
  originalRequest : Obj
  data : JsVal
  customAttributes : Obj

/-- WebsocketRequest constructor (part_002 lines 262-270). -/
def WebsocketRequest.make (msg : Obj) (customAttributes : Obj) : WebsocketRequest :=
  { originalRequest := msg
    data := jsOr (lookupKey msg "data") (.vObj [])
    customAttributes := customAttributes }

/-- WebsocketRequest.send (part_002 lines 282-292): deep-clone the original
request, delete token, then assign data, err, errsrc.  Returns the response
object handed to sendResponse (before JSON.stringify). -/
def WebsocketRequest.send (r : WebsocketRequest) (err dataV errsrcV : JsVal) : Obj :=
  let dataP := if isUndef dataV then .vObj [] else dataV
  let errsrcP := if isUndef errsrcV then .vStr "application" else errsrcV
  let r1 := delKey r.originalRequest "token"
  let r2 := setKey r1 "data" (jsOr dataP (.vObj []))
  let r3 := setKey r2 "err" (jsOr err .vNull)
  setKey r3 "errsrc" (if isNil err then .vUndefined else errsrcP)

/-- The events of one send call made by a handler: the response object goes
through sendObj on the originating connection. -/
def emitSend (sf : Nat → Bool) (ws : Nat) (r : WebsocketRequest) (a : SendArgs) :
    List Event :=
  sendObjEvents sf ws (r.send a.err a.dataArg a.errsrcArg)

/-- Result of running a handler's handle method: its events and an optional
synchronously escaping exception. -/
structure HandleResult : Type where
  events : List Event
  thrown : Option JsVal

/-- part_002 class CallbackHandler.  The application callback is modelled by its
observable behaviour: the send calls it performs (in order) before returning or
throwing, and the optional thrown exception value. -/
structure CallbackHandler : Type where
  name : String
  callback : WebsocketRequest → List SendArgs × Option JsVal
  acl : JsVal

/-- CallbackHandler.handle (part_002 lines 208-217): log the name, run the
callback; a thrown exception is caught and logged, never propagated. -/
def CallbackHandler.handle (sf : Nat → Bool) (ws : Nat) (h : CallbackHandler)
    (req : WebsocketRequest) : HandleResult :=
  let r := h.callback req
  let sendEvs := (r.1.map (emitSend sf ws req)).flatten
  match r.2 with
  | none => { events := .logInfo h.name :: sendEvs, thrown := none }
  | some _ =>
    { events := .logInfo h.name :: sendEvs ++ [.logError "handler-exception"]
      thrown := none }

/-- Settlement of the promise returned by a promise handler's factory. -/
inductive PromiseOutcome : Type where
  | resolved : JsVal → PromiseOutcome
  | rejected : JsVal → PromiseOutcome

/-- part_002 class PromiseHandler; the constructor (lines 222-226) stores the
factory in the field genPromise. -/
structure PromiseHandler : Type where
  name : String
  genPromise : WebsocketRequest → PromiseOutcome
  acl : JsVal

/-- PromiseHandler.handle (part_002 lines 228-238) evaluates
this.callback(req, req).then(...), but the constructor stores the factory as
this.genPromise and never assigns a callback field, so this.callback is
undefined and the call throws a TypeError before the factory or any then/catch
logic can run.  No events are produced; the TypeError escapes handle. -/
def PromiseHandler.handle (_sf : Nat → Bool) (_ws : Nat) (_h : PromiseHandler)
    (_req : WebsocketRequest) : HandleResult :=
  { events := [], thrown := some (.vStr "TypeError: this.callback is not a function") }

/-- A registered handler: one of the two kinds. -/
inductive Handler : Type where
  | callback : CallbackHandler → Handler
  | promise : PromiseHandler → Handler

/-- The access rule stored with the handler (read by onMessage as handler.acl). -/
def Handler.acl : Handler → JsVal
  | .callback h => h.acl
  | .promise h => h.acl

/-- The registered name (used for the handlerInvoked trace event). -/
def Handler.name : Handler → String
  | .callback h => h.name
  | .promise h => h.name

/-- Dynamic dispatch of handler.handle(req). -/
def Handler.handle (sf : Nat → Bool) (ws : Nat) :
    Handler → WebsocketRequest → HandleResult
  | .callback h, req => h.handle sf ws req
  | .promise h, req => h.handle sf ws req

/-- Outcome of the ACL gate promise checkACL(token, acl). -/
inductive AclOutcome : Type where
  | resolved : Obj → AclOutcome
  | rejected : JsVal → AclOutcome

/-- Own-key lookup in the registry association list (first binding wins). -/
def findOwnHandler : List (String × Handler) → String → Option Handler
  | [], _ => none
  | p :: rest, k => if p.1 = k then some p.2 else findOwnHandler rest k

/-- The property names every plain object inherits from Object.prototype.
Reading any of them on the registry object this.handlers = \x7b\x7d yields a
truthy value (a function, or the prototype object itself for the __proto__
accessor), never a registered handler. -/
def objectProtoKeys : List String :=
  ["constructor", "hasOwnProperty", "isPrototypeOf", "propertyIsEnumerable",
   "toLocaleString", "toString", "valueOf", "__defineGetter__",
   "__defineSetter__", "__lookupGetter__", "__lookupSetter__", "__proto__"]

/-- Result of the property read this.handlers[func] on the plain-object
registry: an own key yields the registered handler; any other key naming an
Object.prototype property yields a truthy inherited value that is not a
handler; everything else is undefined. -/
inductive HandlerLookup : Type where
  | registered : Handler → HandlerLookup
  | inherited : HandlerLookup
  | missing : HandlerLookup

/-- The registry read this.handlers[func], prototype chain included: own keys
shadow the inherited Object.prototype properties. -/
def lookupHandler (hs : List (String × Handler)) (k : String) : HandlerLookup :=
  match findOwnHandler hs k with
  | some h => .registered h
  | none => if objectProtoKeys.contains k then .inherited else .missing

/-- String(err) for the TypeError raised when an inherited Object.prototype
value is used as a handler: its handle member is undefined, so the call
handler.handle(...) throws before any handler logic runs. -/
def inheritedTypeError : JsVal := .vStr "TypeError: handler.handle is not a function"

/-- Insert or replace a registration (property assignment on this.handlers). -/
def registerHandler : List (String × Handler) → String → Handler →
    List (String × Handler)
  | [], k, h => [(k, h)]
  | p :: rest, k, h => if p.1 = k then (k, h) :: rest else p :: registerHandler rest k h

/-- The mutable state of one WebsocketServer instance. -/
structure WebsocketServer : Type where
  allWS : List Nat
  handlers : List (String × Handler)
  checkACL : Option (JsVal → JsVal → AclOutcome)

/-- WebsocketServer.addHandler (part_002 lines 142-144). -/
def WebsocketServer.addHandler (st : WebsocketServer) (funcName : String)
    (callback : WebsocketRequest → List SendArgs × Option JsVal) (acl : JsVal) :
    WebsocketServer :=
  { st with handlers :=
      registerHandler st.handlers funcName (.callback ⟨funcName, callback, acl⟩) }

/-- WebsocketServer.addPromiseHandler (part_002 lines 159-161). -/
def WebsocketServer.addPromiseHandler (st : WebsocketServer) (funcName : String)
    (genPromise : WebsocketRequest → PromiseOutcome) (acl : JsVal) :
    WebsocketServer :=
  { st with handlers :=
      registerHandler st.handlers funcName (.promise ⟨funcName, genPromise, acl⟩) }

/-- Result of the two validity checks of onMessage (part_002 lines 82-95),
in source order: the func check runs first. -/
inductive ValidateResult : Type where
  | rejectFunc : ValidateResult
  | rejectData : ValidateResult
  | ok : ValidateResult

/-- The validity checks: if (!msg.func) reject; else if (_.isNil(msg.data)) reject. -/
def validate (msg : Obj) : ValidateResult :=
  if truthy (lookupKey msg "func") then
    if isNil (lookupKey msg "data") then .rejectData else .ok
  else .rejectFunc

/-- The msgformat error text for a missing func. -/
def funcMissingErr : String :=
  "msg.func is null or undefined. Please specify the function to use"

/-- The msgformat error text for missing data. -/
def dataMissingErr : String :=
  "msg.data is null or undefined. Use empty data object if there is no data to send"

/-- The no-such-handler error text (names the requested func). -/
def noHandlerErr (funcStr : String) : String :=
  "No handler API.onWSMessage\x27" ++ funcStr ++ "\x27 defined!"

/-- Result of dispatching one inbound message: the event trace and an optional
exception escaping the message listener. -/
structure DispatchResult : Type where
  events : List Event
  escaped : Option JsVal

/-- WebsocketServer.onMessage (part_002 lines 75-120) on an already-parsed
envelope (a JSON.parse failure returns after a log line only and reaches none
of this code; the claims all start from a successfully parsed object).

Branches, as in the source: validity checks (error replies use the inbound msg
as template), handler lookup (error reply uses an empty template), then either
the ACL gate path or direct invocation.  With a gate, a rejection is replied
with errsrc acl; note the catch also receives an exception thrown synchronously
by handler.handle inside the then-callback, producing the same acl-tagged reply.
Without a gate, an exception from handler.handle escapes the listener.

The registry read this.handlers[func] consults the prototype chain: when the
func string names an Object.prototype property, the inherited value is truthy,
so the if (!handler) branch is skipped; handler.acl reads as undefined, and
calling handler.handle throws a TypeError — with a gate, inside the
then-callback (so the catch sends an acl-tagged reply); without a gate, the
TypeError escapes the listener and no reply is sent. -/
def WebsocketServer.onMessage (st : WebsocketServer) (sf : Nat → Bool) (ws : Nat)
    (msg : Obj) : DispatchResult :=
  match validate msg with
  | .rejectFunc =>
    { events := sendErrorMessage sf ws msg (.vStr funcMissingErr) "msgformat"
        ++ [.logError "missing-func"]
      escaped := none }
  | .rejectData =>
    { events := sendErrorMessage sf ws msg (.vStr dataMissingErr) "msgformat"
        ++ [.logError "missing-data"]
      escaped := none }
  | .ok =>
    let func := lookupKey msg "func"
    match lookupHandler st.handlers (jsToString func) with
    | .missing =>
      { events := .logError "no-such-handler"
          :: sendErrorMessage sf ws [] (.vStr (noHandlerErr (jsToString func)))
              "no-such-handler"
        escaped := none }
    | .inherited =>
      let token := lookupKey msg "token"
      match st.checkACL with
      | some gate =>
        match gate token .vUndefined with
        | .resolved _ =>
          { events := .aclChecked token .vUndefined
              :: sendErrorMessage sf ws msg
                  (.vStr ("ACL error: " ++ jsToString inheritedTypeError)) "acl"
            escaped := none }
        | .rejected r =>
          { events := .aclChecked token .vUndefined
              :: sendErrorMessage sf ws msg
                  (.vStr ("ACL error: " ++ jsToString r)) "acl"
            escaped := none }
      | none => { events := [], escaped := some inheritedTypeError }
    | .registered handler =>
      let token := lookupKey msg "token"
      match st.checkACL with
      | some gate =>
        match gate token handler.acl with
        | .resolved attrs =>
          let req := WebsocketRequest.make msg attrs
          let hr := handler.handle sf ws req
          match hr.thrown with
          | none =>
            { events := .aclChecked token handler.acl
                :: .handlerInvoked handler.name :: hr.events
              escaped := none }
          | some e =>
            { events := .aclChecked token handler.acl
                :: .handlerInvoked handler.name :: hr.events
                ++ sendErrorMessage sf ws msg
                    (.vStr ("ACL error: " ++ jsToString e)) "acl"
              escaped := none }
        | .rejected r =>
          { events := .aclChecked token handler.acl
              :: sendErrorMessage sf ws msg
                  (.vStr ("ACL error: " ++ jsToString r)) "acl"
            escaped := none }
      | none =>
        let req := WebsocketRequest.make msg []
        let hr := handler.handle sf ws req
        { events := .handlerInvoked handler.name :: hr.events
          escaped := hr.thrown }

/-- WebsocketServer.onClose (part_002 lines 58-65): indexOf/splice removes the
first occurrence of the connection from the broadcast list (no-op when absent). -/
def WebsocketServer.onClose (st : WebsocketServer) (ws : Nat) : WebsocketServer :=
  { st with allWS := removeFirst st.allWS ws }
where
  removeFirst : List Nat → Nat → List Nat
    | [], _ => []
    | x :: xs, w => if x = w then xs else x :: removeFirst xs w

/-- WebsocketServer.broadcast (part_002 lines 188-193): sendObj the object
as-is to every connection in allWS. -/
def WebsocketServer.broadcast (st : WebsocketServer) (sf : Nat → Bool) (obj : Obj) :
    List Event :=
  (st.allWS.map (fun ws => sendObjEvents sf ws obj)).flatten

/-- True when the trace contains no handlerInvoked event. -/
def noHandlerInvoked : List Event → Bool
  | [] => true
  | .handlerInvoked _ :: _ => false
  | _ :: rest => noHandlerInvoked rest

/-- True when the trace contains no factoryInvoked event. -/
def noFactoryInvoked : List Event → Bool
  | [] => true
  | .factoryInvoked _ :: _ => false
  | _ :: rest => noFactoryInvoked rest

/-- Number of successful transport sends in a trace. -/
def countWsSend : List Event → Nat
  | [] => 0
  | .wsSend _ _ :: rest => countWsSend rest + 1
  | _ :: rest => countWsSend rest

/-- Number of ACL gate invocations in a trace. -/
def countAclChecked : List Event → Nat
  | [] => 0
  | .aclChecked _ _ :: rest => countAclChecked rest + 1
  | _ :: rest => countAclChecked rest

/-- Events addressed to a given connection (sends and send-failure logs). -/
def touchesWs (ws : Nat) : Event → Bool
  | .wsSend w _ => w = ws
  | .sendFailLog w => w = ws
  | _ => false

/-! ### Association-list lemmas -/

theorem lookupKey_setKey_self (o : Obj) (k : String) (v : JsVal) :
    lookupKey (setKey o k v) k = v := by
  induction o with
  | nil => simp [setKey, lookupKey]
  | cons p rest ih =>
    by_cases h : p.1 = k
    · simp [setKey, h, lookupKey]
    · simp [setKey, h, lookupKey, ih]

theorem lookupKey_setKey_ne (o : Obj) (k k' : String) (v : JsVal) (h : k' ≠ k) :
    lookupKey (setKey o k v) k' = lookupKey o k' := by
  have hk : k ≠ k' := fun hh => h hh.symm
  induction o with
  | nil => simp [setKey, lookupKey, hk]
  | cons p rest ih =>
    by_cases hp : p.1 = k
    · have hp' : p.1 ≠ k' := by rw [hp]; exact hk
      simp [setKey, hp, lookupKey, hk, h, hp']
    · by_cases hp' : p.1 = k'
      · simp [setKey, hp, lookupKey, hk, h, hp']
      · simp [setKey, hp, lookupKey, hp', ih]

theorem lookupKey_delKey_ne (o : Obj) (k k' : String) (h : k' ≠ k) :
    lookupKey (delKey o k) k' = lookupKey o k' := by
  have hk : k ≠ k' := fun hh => h hh.symm
  induction o with
  | nil => simp [delKey]
  | cons p rest ih =>
    by_cases hp : p.1 = k
    · have hp' : p.1 ≠ k' := by rw [hp]; exact hk
      simp [delKey, hp, lookupKey, hk, h, hp', ih]
    · by_cases hp' : p.1 = k'
      · simp [delKey, hp, lookupKey, hk, h, hp']
      · simp [delKey, hp, lookupKey, hp', ih]

theorem hasKey_setKey_ne (o : Obj) (k k' : String) (v : JsVal) (h : k' ≠ k) :
    hasKey (setKey o k v) k' = hasKey o k' := by
  have hk : k ≠ k' := fun hh => h hh.symm
  induction o with
  | nil => simp [setKey, hasKey, hk]
  | cons p rest ih =>
    by_cases hp : p.1 = k
    · have hp' : p.1 ≠ k' := by rw [hp]; exact hk
      simp [setKey, hp, hasKey, hk, h, hp']
    · by_cases hp' : p.1 = k'
      · simp [setKey, hp, hasKey, hk, h, hp']
      · simp [setKey, hp, hasKey, hp', ih]

theorem hasKey_delKey_ne (o : Obj) (k k' : String) (h : k' ≠ k) :
    hasKey (delKey o k) k' = hasKey o k' := by
  have hk : k ≠ k' := fun hh => h hh.symm
  induction o with
  | nil => simp [delKey]
  | cons p rest ih =>
    by_cases hp : p.1 = k
    · have hp' : p.1 ≠ k' := by rw [hp]; exact hk
      simp [delKey, hp, hasKey, hk, h, hp', ih]
    · by_cases hp' : p.1 = k'
      · simp [delKey, hp, hasKey, hk, h, hp']
      · simp [delKey, hp, hasKey, hp', ih]

theorem hasKey_false_lookup (o : Obj) (k : String) (h : hasKey o k = false) :
    lookupKey o k = .vUndefined := by
  induction o with
  | nil => simp [lookupKey]
  | cons p rest ih =>
    by_cases hp : p.1 = k
    · simp [hasKey, hp] at h
    · simp [hasKey, hp] at h
      simp [lookupKey, hp, ih h]

theorem hasKey_true_of_lookup (o : Obj) (k : String)
    (h : isUndef (lookupKey o k) = false) : hasKey o k = true := by
  by_cases hh : hasKey o k = true
  · exact hh
  · rw [hasKey_false_lookup o k (by simpa using hh)] at h
    simp [isUndef] at h

theorem noUndef_hasKey_false (o : Obj) (k : String) (hn : noUndef o = true)
    (h : lookupKey o k = .vUndefined) : hasKey o k = false := by
  induction o with
  | nil => simp [hasKey]
  | cons p rest ih =>
    simp [noUndef] at hn
    by_cases hp : p.1 = k
    · rw [lookupKey, if_pos hp] at h
      rw [h] at hn
      simp [isUndef] at hn
    · rw [lookupKey, if_neg hp] at h
      simp [hasKey, hp, ih hn.2 h]

/-! ### Wire-form (JSON.stringify) lemmas -/

theorem wire_noUndef (o : Obj) (h : noUndef o = true) : wire o = o := by
  induction o with
  | nil => simp [wire]
  | cons p rest ih =>
    simp [noUndef] at h
    simp [wire, h.1, ih h.2]

theorem lookupKey_wire (o : Obj) (k : String)
    (h : isUndef (lookupKey o k) = false) : lookupKey (wire o) k = lookupKey o k := by
  induction o with
  | nil => simp [wire]
  | cons p rest ih =>
    by_cases hp : p.1 = k
    · rw [lookupKey, if_pos hp] at h
      simp [wire, h, lookupKey, hp]
    · rw [lookupKey, if_neg hp] at h
      by_cases hu : isUndef p.2 = true
      · simp [wire, hu, lookupKey, hp, ih h]
      · simp at hu
        simp [wire, hu, lookupKey, hp, ih h]

theorem hasKey_wire_true (o : Obj) (k : String)
    (h : isUndef (lookupKey o k) = false) : hasKey (wire o) k = true := by
  apply hasKey_true_of_lookup
  rw [lookupKey_wire o k h]
  exact h

theorem hasKey_wire_false (o : Obj) (k : String) (hnd : nodupKeys o = true)
    (h : lookupKey o k = .vUndefined) : hasKey (wire o) k = false := by
  induction o with
  | nil => simp [wire, hasKey]
  | cons p rest ih =>
    simp [nodupKeys] at hnd
    by_cases hp : p.1 = k
    · rw [lookupKey, if_pos hp] at h
      have hr : lookupKey rest k = .vUndefined := by
        apply hasKey_false_lookup
        rw [← hp]
        simpa using hnd.1
      simp [wire, h, isUndef, ih hnd.2 hr]
    · rw [lookupKey, if_neg hp] at h
      by_cases hu : isUndef p.2 = true
      · simp [wire, hu, ih hnd.2 h]
      · simp at hu
        simp [wire, hu, hasKey, hp, ih hnd.2 h]

theorem nodupKeys_setKey (o : Obj) (k : String) (v : JsVal)
    (h : nodupKeys o = true) : nodupKeys (setKey o k v) = true := by
  induction o with
  | nil => simp [setKey, nodupKeys, hasKey]
  | cons p rest ih =>
    simp [nodupKeys] at h
    by_cases hp : p.1 = k
    · rw [setKey, if_pos hp]
      rw [hp] at h
      simp [nodupKeys, h.1, h.2]
    · rw [setKey, if_neg hp]
      have : hasKey (setKey rest k v) p.1 = hasKey rest p.1 :=
        hasKey_setKey_ne rest k p.1 v hp
      simp [nodupKeys, this, h.1, ih h.2]

theorem nodupKeys_delKey (o : Obj) (k : String) (h : nodupKeys o = true) :
    nodupKeys (delKey o k) = true := by
  induction o with
  | nil => simp [delKey, nodupKeys]
  | cons p rest ih =>
    simp [nodupKeys] at h
    by_cases hp : p.1 = k
    · simp [delKey, hp, ih h.2]
    · have : hasKey (delKey rest k) p.1 = hasKey rest p.1 :=
        hasKey_delKey_ne rest k p.1 hp
      simp [delKey, hp, nodupKeys, this, h.1, ih h.2]

/-! ### token lemmas -/

theorem tokenFree_delKey_token (o : Obj) : tokenFree (delKey o "token") = true := by
  induction o with
  | nil => simp [delKey, tokenFree]
  | cons p rest ih =>
    by_cases hp : p.1 = "token"
    · simp [delKey, hp, ih]
    · simp [delKey, hp, tokenFree, ih]

theorem tokenFree_setKey (o : Obj) (k : String) (v : JsVal) (hk : k ≠ "token")
    (h : tokenFree o = true) : tokenFree (setKey o k v) = true := by
  induction o with
  | nil => simpa [setKey, tokenFree, hk] using h
  | cons p rest ih =>
    by_cases hp : p.1 = "token"
    · simp [tokenFree, hp] at h
    · simp [tokenFree, hp] at h
      by_cases hpk : p.1 = k
      · simp [setKey, hpk, tokenFree, hk, h]
      · simp [setKey, hpk, tokenFree, hp, ih h]

theorem tokenFree_wire (o : Obj) (h : tokenFree o = true) :
    tokenFree (wire o) = true := by
  induction o with
  | nil => simp [wire, tokenFree]
  | cons p rest ih =>
    by_cases hp : p.1 = "token"
    · simp [tokenFree, hp] at h
    · simp [tokenFree, hp] at h
      by_cases hu : isUndef p.2 = true
      · simp [wire, hu, ih h]
      · simp at hu
        simp [wire, hu, tokenFree, hp, ih h]

theorem isUndef_iff (v : JsVal) : isUndef v = true ↔ v = .vUndefined := by
  cases v <;> simp [isUndef]

theorem hasKey_wire_le (o : Obj) (k : String) (h : hasKey o k = false) :
    hasKey (wire o) k = false := by
  induction o with
  | nil => simp [wire, hasKey]
  | cons p rest ih =>
    by_cases hp : p.1 = k
    · simp [hasKey, hp] at h
    · simp [hasKey, hp] at h
      by_cases hu : isUndef p.2 = true
      · simp [wire, hu, ih h]
      · simp at hu
        simp [wire, hu, hasKey, hp, ih h]

/-! ### Reply-object lemmas -/

/-- Unfolded form of WebsocketRequest.send (the lets are definitional). -/
theorem send_unfold (r : WebsocketRequest) (e d s : JsVal) :
    r.send e d s =
      setKey (setKey (setKey (delKey r.originalRequest "token") "data"
          (jsOr (if isUndef d then .vObj [] else d) (.vObj [])))
        "err" (jsOr e .vNull))
        "errsrc" (if isNil e then .vUndefined
                  else if isUndef s then .vStr "application" else s) := rfl

theorem errorReply_errsrc (msg : Obj) (e : JsVal) (s : String) :
    lookupKey (wire (errorReplyObj msg e s)) "errsrc" = .vStr s := by
  have h1 : lookupKey (errorReplyObj msg e s) "errsrc" = .vStr s := by
    rw [errorReplyObj, lookupKey_setKey_self]
  rw [lookupKey_wire _ _ (by rw [h1]; rfl), h1]

theorem errorReply_err (msg : Obj) (e : JsVal) (s : String)
    (hu : isUndef e = false) :
    lookupKey (wire (errorReplyObj msg e s)) "err" = e := by
  have h1 : lookupKey (errorReplyObj msg e s) "err" = e := by
    rw [errorReplyObj, lookupKey_setKey_ne _ _ _ _ (by decide), lookupKey_setKey_self]
  rw [lookupKey_wire _ _ (by rw [h1]; exact hu), h1]

/-- Everything outside data/err/errsrc passes unchanged through an error reply
built from the inbound template (in particular the token). -/
theorem errorReply_passThrough (msg : Obj) (e : JsVal) (s k : String)
    (hd : k ≠ "data") (he : k ≠ "err") (hs : k ≠ "errsrc")
    (hn : noUndef msg = true) :
    lookupKey (wire (errorReplyObj msg e s)) k = lookupKey msg k := by
  have h1 : lookupKey (errorReplyObj msg e s) k = lookupKey msg k := by
    rw [errorReplyObj, lookupKey_setKey_ne _ _ _ _ hs, lookupKey_setKey_ne _ _ _ _ he,
        lookupKey_delKey_ne _ _ _ hd]
  by_cases hk : isUndef (lookupKey msg k) = true
  · have hmu : lookupKey msg k = .vUndefined := (isUndef_iff _).mp hk
    have hout : hasKey (errorReplyObj msg e s) k = false := by
      rw [errorReplyObj, hasKey_setKey_ne _ _ _ _ hs, hasKey_setKey_ne _ _ _ _ he,
          hasKey_delKey_ne _ _ _ hd]
      exact noUndef_hasKey_false msg k hn hmu
    rw [hasKey_false_lookup _ _ (hasKey_wire_le _ _ hout), hmu]
  · simp at hk
    rw [lookupKey_wire _ _ (h1 ▸ hk), h1]

/-- Everything outside data/token/err/errsrc passes unchanged through a
handler reply built by WebsocketRequest.send. -/
theorem sendReply_passThrough (r : WebsocketRequest) (e d s : JsVal) (k : String)
    (hd : k ≠ "data") (ht : k ≠ "token") (he : k ≠ "err") (hs : k ≠ "errsrc")
    (hn : noUndef r.originalRequest = true) :
    lookupKey (wire (r.send e d s)) k = lookupKey r.originalRequest k := by
  have h1 : lookupKey (r.send e d s) k = lookupKey r.originalRequest k := by
    rw [send_unfold, lookupKey_setKey_ne _ _ _ _ hs, lookupKey_setKey_ne _ _ _ _ he,
        lookupKey_setKey_ne _ _ _ _ hd, lookupKey_delKey_ne _ _ _ ht]
  by_cases hk : isUndef (lookupKey r.originalRequest k) = true
  · have hmu : lookupKey r.originalRequest k = .vUndefined := (isUndef_iff _).mp hk
    have hout : hasKey (r.send e d s) k = false := by
      rw [send_unfold, hasKey_setKey_ne _ _ _ _ hs, hasKey_setKey_ne _ _ _ _ he,
          hasKey_setKey_ne _ _ _ _ hd, hasKey_delKey_ne _ _ _ ht]
      exact noUndef_hasKey_false _ k hn hmu
    rw [hasKey_false_lookup _ _ (hasKey_wire_le _ _ hout), hmu]
  · simp at hk
    rw [lookupKey_wire _ _ (h1 ▸ hk), h1]

/-! ### Trace-count lemmas -/

theorem countAclChecked_append (l1 l2 : List Event) :
    countAclChecked (l1 ++ l2) = countAclChecked l1 + countAclChecked l2 := by
  induction l1 with
  | nil => simp [countAclChecked]
  | cons e rest ih => cases e <;> simp [countAclChecked, ih] <;> omega

theorem countAclChecked_sendObjEvents (sf : Nat → Bool) (ws : Nat) (o : Obj) :
    countAclChecked (sendObjEvents sf ws o) = 0 := by
  by_cases h : sf ws = true
  · simp [sendObjEvents, h, countAclChecked]
  · simp at h
    simp [sendObjEvents, h, countAclChecked]

theorem countAclChecked_sendErrorMessage (sf : Nat → Bool) (ws : Nat) (msg : Obj)
    (e : JsVal) (s : String) :
    countAclChecked (sendErrorMessage sf ws msg e s) = 0 := by
  rw [sendErrorMessage]
  exact countAclChecked_sendObjEvents sf ws _

theorem countAclChecked_emits (sf : Nat → Bool) (ws : Nat) (req : WebsocketRequest)
    (sends : List SendArgs) :
    countAclChecked ((sends.map (emitSend sf ws req)).flatten) = 0 := by
  induction sends with
  | nil => simp [countAclChecked]
  | cons a rest ih =>
    simp only [List.map_cons, List.flatten_cons, countAclChecked_append, ih]
    simp [emitSend, countAclChecked_sendObjEvents]

theorem callbackHandle_thrown (sf : Nat → Bool) (ws : Nat) (ch : CallbackHandler)
    (req : WebsocketRequest) : (ch.handle sf ws req).thrown = none := by
  rcases hc : ch.callback req with ⟨sends, exc⟩
  cases exc <;> simp [CallbackHandler.handle, hc]

theorem callbackHandle_events (sf : Nat → Bool) (ws : Nat) (ch : CallbackHandler)
    (req : WebsocketRequest) (sends : List SendArgs) (exc : Option JsVal)
    (hc : ch.callback req = (sends, exc)) :
    (ch.handle sf ws req).events
      = .logInfo ch.name :: (sends.map (emitSend sf ws req)).flatten
          ++ (match exc with | none => [] | some _ => [.logError "handler-exception"]) := by
  cases exc <;> simp [CallbackHandler.handle, hc]

theorem countAclChecked_handle (sf : Nat → Bool) (ws : Nat) (h : Handler)
    (req : WebsocketRequest) :
    countAclChecked ((h.handle sf ws req).events) = 0 := by
  cases h with
  | callback ch =>
    rcases hc : ch.callback req with ⟨sends, exc⟩
    rw [Handler.handle, callbackHandle_events sf ws ch req sends exc hc]
    cases exc <;>
      simp [countAclChecked, countAclChecked_append, countAclChecked_emits]
  | promise ph => simp [Handler.handle, PromiseHandler.handle, countAclChecked]

/-! ### onMessage branch lemmas -/

theorem onMessage_rejectFunc (st : WebsocketServer) (sf : Nat → Bool) (ws : Nat)
    (msg : Obj) (h : validate msg = .rejectFunc) :
    st.onMessage sf ws msg =
      { events := sendErrorMessage sf ws msg (.vStr funcMissingErr) "msgformat"
          ++ [.logError "missing-func"]
        escaped := none } := by
  simp [WebsocketServer.onMessage, h]

theorem onMessage_rejectData (st : WebsocketServer) (sf : Nat → Bool) (ws : Nat)
    (msg : Obj) (h : validate msg = .rejectData) :
    st.onMessage sf ws msg =
      { events := sendErrorMessage sf ws msg (.vStr dataMissingErr) "msgformat"
          ++ [.logError "missing-data"]
        escaped := none } := by
  simp [WebsocketServer.onMessage, h]

theorem onMessage_noHandler (st : WebsocketServer) (sf : Nat → Bool) (ws : Nat)
    (msg : Obj) (hv : validate msg = .ok)
    (hh : lookupHandler st.handlers (jsToString (lookupKey msg "func")) = .missing) :
    st.onMessage sf ws msg =
      { events := .logError "no-such-handler" ::
          sendErrorMessage sf ws []
            (.vStr (noHandlerErr (jsToString (lookupKey msg "func")))) "no-such-handler"
        escaped := none } := by
  simp [WebsocketServer.onMessage, hv, hh]

theorem onMessage_aclRejected (st : WebsocketServer) (sf : Nat → Bool) (ws : Nat)
    (msg : Obj) (gate : JsVal → JsVal → AclOutcome) (handler : Handler) (r : JsVal)
    (hv : validate msg = .ok)
    (hh : lookupHandler st.handlers (jsToString (lookupKey msg "func")) = .registered handler)
    (hg : st.checkACL = some gate)
    (hr : gate (lookupKey msg "token") handler.acl = .rejected r) :
    st.onMessage sf ws msg =
      { events := .aclChecked (lookupKey msg "token") handler.acl ::
          sendErrorMessage sf ws msg (.vStr ("ACL error: " ++ jsToString r)) "acl"
        escaped := none } := by
  simp [WebsocketServer.onMessage, hv, hh, hg, hr]

theorem onMessage_aclResolved_ok (st : WebsocketServer) (sf : Nat → Bool) (ws : Nat)
    (msg : Obj) (gate : JsVal → JsVal → AclOutcome) (handler : Handler) (attrs : Obj)
    (hv : validate msg = .ok)
    (hh : lookupHandler st.handlers (jsToString (lookupKey msg "func")) = .registered handler)
    (hg : st.checkACL = some gate)
    (ha : gate (lookupKey msg "token") handler.acl = .resolved attrs)
    (ht : (handler.handle sf ws (WebsocketRequest.make msg attrs)).thrown = none) :
    st.onMessage sf ws msg =
      { events := .aclChecked (lookupKey msg "token") handler.acl ::
          .handlerInvoked handler.name ::
          (handler.handle sf ws (WebsocketRequest.make msg attrs)).events
        escaped := none } := by
  simp [WebsocketServer.onMessage, hv, hh, hg, ha, ht]

theorem onMessage_aclResolved_thrown (st : WebsocketServer) (sf : Nat → Bool) (ws : Nat)
    (msg : Obj) (gate : JsVal → JsVal → AclOutcome) (handler : Handler) (attrs : Obj)
    (e : JsVal) (hv : validate msg = .ok)
    (hh : lookupHandler st.handlers (jsToString (lookupKey msg "func")) = .registered handler)
    (hg : st.checkACL = some gate)
    (ha : gate (lookupKey msg "token") handler.acl = .resolved attrs)
    (ht : (handler.handle sf ws (WebsocketRequest.make msg attrs)).thrown = some e) :
    st.onMessage sf ws msg =
      { events := .aclChecked (lookupKey msg "token") handler.acl ::
          .handlerInvoked handler.name ::
          (handler.handle sf ws (WebsocketRequest.make msg attrs)).events
          ++ sendErrorMessage sf ws msg (.vStr ("ACL error: " ++ jsToString e)) "acl"
        escaped := none } := by
  simp [WebsocketServer.onMessage, hv, hh, hg, ha, ht]

theorem onMessage_noGate (st : WebsocketServer) (sf : Nat → Bool) (ws : Nat)
    (msg : Obj) (handler : Handler) (hv : validate msg = .ok)
    (hh : lookupHandler st.handlers (jsToString (lookupKey msg "func")) = .registered handler)
    (hg : st.checkACL = none) :
    st.onMessage sf ws msg =
      { events := .handlerInvoked handler.name ::
          (handler.handle sf ws (WebsocketRequest.make msg [])).events
        escaped := (handler.handle sf ws (WebsocketRequest.make msg [])).thrown } := by
  simp [WebsocketServer.onMessage, hv, hh, hg]

theorem onMessage_gated_escaped (st : WebsocketServer) (sf : Nat → Bool) (ws : Nat)
    (msg : Obj) (gate : JsVal → JsVal → AclOutcome) (handler : Handler)
    (hv : validate msg = .ok)
    (hh : lookupHandler st.handlers (jsToString (lookupKey msg "func")) = .registered handler)
    (hg : st.checkACL = some gate) :
    (st.onMessage sf ws msg).escaped = none := by
  rcases hac : gate (lookupKey msg "token") handler.acl with attrs | r
  · rcases ht : (handler.handle sf ws (WebsocketRequest.make msg attrs)).thrown with _ | e
    · rw [onMessage_aclResolved_ok st sf ws msg gate handler attrs hv hh hg hac ht]
    · rw [onMessage_aclResolved_thrown st sf ws msg gate handler attrs e hv hh hg hac ht]
  · rw [onMessage_aclRejected st sf ws msg gate handler r hv hh hg hac]

theorem onMessage_inherited_noGate (st : WebsocketServer) (sf : Nat → Bool)
    (ws : Nat) (msg : Obj) (hv : validate msg = .ok)
    (hh : lookupHandler st.handlers (jsToString (lookupKey msg "func")) = .inherited)
    (hg : st.checkACL = none) :
    st.onMessage sf ws msg = { events := [], escaped := some inheritedTypeError } := by
  simp [WebsocketServer.onMessage, hv, hh, hg]

theorem onMessage_inherited_resolved (st : WebsocketServer) (sf : Nat → Bool)
    (ws : Nat) (msg : Obj) (gate : JsVal → JsVal → AclOutcome) (attrs : Obj)
    (hv : validate msg = .ok)
    (hh : lookupHandler st.handlers (jsToString (lookupKey msg "func")) = .inherited)
    (hg : st.checkACL = some gate)
    (ha : gate (lookupKey msg "token") .vUndefined = .resolved attrs) :
    st.onMessage sf ws msg =
      { events := .aclChecked (lookupKey msg "token") .vUndefined ::
          sendErrorMessage sf ws msg
            (.vStr ("ACL error: " ++ jsToString inheritedTypeError)) "acl"
        escaped := none } := by
  simp [WebsocketServer.onMessage, hv, hh, hg, ha]

theorem onMessage_inherited_rejected (st : WebsocketServer) (sf : Nat → Bool)
    (ws : Nat) (msg : Obj) (gate : JsVal → JsVal → AclOutcome) (r : JsVal)
    (hv : validate msg = .ok)
    (hh : lookupHandler st.handlers (jsToString (lookupKey msg "func")) = .inherited)
    (hg : st.checkACL = some gate)
    (ha : gate (lookupKey msg "token") .vUndefined = .rejected r) :
    st.onMessage sf ws msg =
      { events := .aclChecked (lookupKey msg "token") .vUndefined ::
          sendErrorMessage sf ws msg
            (.vStr ("ACL error: " ++ jsToString r)) "acl"
        escaped := none } := by
  simp [WebsocketServer.onMessage, hv, hh, hg, ha]

/-! ## Concrete fixtures used by counterexamples and witnesses -/

/-- A transport on which ws.send never throws. -/
def sfOk : Nat → Bool := fun _ => false

/-- A server with one connection, no handlers, no ACL gate. -/
def plainServer : WebsocketServer :=
  { allWS := [0], handlers := [], checkACL := none }

/-- A server with one registered promise handler whose factory resolves to
the object with field foo = bar. -/
def c1Server : WebsocketServer :=
  { allWS := [0]
    handlers := [("getFoo", .promise
      { name := "getFoo"
        genPromise := fun _ => .resolved (.vObj [("foo", .vStr "bar")])
        acl := .vObj [] })]
    checkACL := none }

/-- The inbound envelope for the C1 failing input. -/
def c1Msg : Obj := [("func", .vStr "getFoo"), ("data", .vObj [])]

/-! ## Claims -/

/-- C1 (code_bug evidence): dispatching the valid envelope
(func = getFoo, data = empty object) to the registered promise handler whose
factory resolves to the object with foo = bar produces NO reply and never
invokes the factory: the only event is the handler.handle call itself, no
wsSend and no factoryInvoked event occur, and a TypeError escapes the message
listener.  The claimed behaviour (factory invoked; resolve/reject turned into
replies) is unreachable because PromiseHandler.handle reads this.callback,
which the constructor never sets (it stores the factory as genPromise). -/
theorem c1_promise_dispatch_bug :
    (c1Server.onMessage sfOk 0 c1Msg).events = [.handlerInvoked "getFoo"]
    ∧ (c1Server.onMessage sfOk 0 c1Msg).escaped
        = some (.vStr "TypeError: this.callback is not a function")
    ∧ noFactoryInvoked (c1Server.onMessage sfOk 0 c1Msg).events = true
    ∧ countWsSend (c1Server.onMessage sfOk 0 c1Msg).events = 0 :=
  ⟨rfl, rfl, rfl, rfl⟩

/-- C2 counterexample: the inbound envelope (func = f, token = secret, no data)
produces a msgformat error reply that still carries token = secret, refuting
"the outbound envelope contains no token field" for dispatcher-issued format
error replies. -/
theorem c2_token_counterexample :
    (plainServer.onMessage sfOk 0
        [("func", .vStr "f"), ("token", .vStr "secret")]).events
      = [.wsSend 0 [("func", .vStr "f"), ("token", .vStr "secret"),
          ("err", .vStr dataMissingErr), ("errsrc", .vStr "msgformat")],
         .logError "missing-data"]
    ∧ lookupKey [("func", .vStr "f"), ("token", .vStr "secret"),
          ("err", .vStr dataMissingErr), ("errsrc", .vStr "msgformat")] "token"
      = .vStr "secret" :=
  ⟨rfl, rfl⟩

/-- C2 (amended): handler-issued replies built by WebsocketRequest.send carry
no token binding, and neither does the no-such-handler error reply (built from
an empty template); but the msgformat and acl error replies reuse the inbound
envelope as template and retain its token binding unchanged. -/
theorem c2_token_stripping_amended :
    (∀ (r : WebsocketRequest) (e d s : JsVal),
        tokenFree (wire (r.send e d s)) = true)
  ∧ (∀ e s : String, tokenFree (wire (errorReplyObj [] (.vStr e) s)) = true)
  ∧ (∀ (msg : Obj) (e s : String), noUndef msg = true →
        lookupKey (wire (errorReplyObj msg (.vStr e) s)) "token"
          = lookupKey msg "token") := by
  refine ⟨fun r e d s => ?_, fun e s => rfl, fun msg e s hn => ?_⟩
  · rw [send_unfold]
    exact tokenFree_wire _ (tokenFree_setKey _ _ _ (by decide)
      (tokenFree_setKey _ _ _ (by decide)
        (tokenFree_setKey _ _ _ (by decide) (tokenFree_delKey_token _))))
  · exact errorReply_passThrough msg _ s "token"
      (by decide) (by decide) (by decide) hn

/-- Witness for C2 (amended) at concrete inputs. -/
theorem c2_token_stripping_amended_witness :
    tokenFree (wire ((WebsocketRequest.make
        [("func", .vStr "f"), ("token", .vStr "t")] []).send
          (.vStr "e") .vUndefined .vUndefined)) = true
    ∧ tokenFree (wire (errorReplyObj [] (.vStr "boom") "no-such-handler")) = true
    ∧ lookupKey (wire (errorReplyObj
          [("func", .vStr "f"), ("token", .vStr "t")] (.vStr "boom") "msgformat"))
        "token"
      = lookupKey [("func", .vStr "f"), ("token", .vStr "t")] "token" :=
  ⟨c2_token_stripping_amended.1 _ _ _ _,
   c2_token_stripping_amended.2.1 "boom" "no-such-handler",
   c2_token_stripping_amended.2.2 _ "boom" "msgformat" (by decide)⟩

/-- C3 counterexample: the inbound envelope carries a pass-through attribute
reqId = 7, but its func has no registered handler, and the resulting
no-such-handler error reply (built from an empty template) does not carry
reqId, refuting "every pass-through attribute appears unchanged in each
outbound envelope". -/
theorem c3_passthrough_counterexample :
    (plainServer.onMessage sfOk 0
        [("func", .vStr "nope"), ("data", .vObj []), ("reqId", .vNum 7)]).events
      = [.logError "no-such-handler",
         .wsSend 0 [("err", .vStr (noHandlerErr "nope")),
           ("errsrc", .vStr "no-such-handler")]]
    ∧ lookupKey [("err", .vStr (noHandlerErr "nope")),
          ("errsrc", .vStr "no-such-handler")] "reqId" = .vUndefined
    ∧ lookupKey [("func", .vStr "nope"), ("data", .vObj []), ("reqId", .vNum 7)]
        "reqId" = .vNum 7 :=
  ⟨rfl, rfl, rfl⟩

/-- C3 (amended): every outbound envelope except the no-such-handler error
reply echoes each pass-through attribute (any key other than data, token, err,
errsrc) of its originating inbound envelope unchanged: handler replies built
by WebsocketRequest.send and dispatcher error replies built from the inbound
template both preserve such keys; the no-such-handler reply instead is built
from an empty template and carries only err and errsrc. -/
theorem c3_passthrough_amended :
    (∀ (r : WebsocketRequest) (e d s : JsVal) (k : String),
        k ≠ "data" → k ≠ "token" → k ≠ "err" → k ≠ "errsrc" →
        noUndef r.originalRequest = true →
        lookupKey (wire (r.send e d s)) k = lookupKey r.originalRequest k)
  ∧ (∀ (msg : Obj) (e : JsVal) (s k : String),
        k ≠ "data" → k ≠ "err" → k ≠ "errsrc" → noUndef msg = true →
        lookupKey (wire (errorReplyObj msg e s)) k = lookupKey msg k)
  ∧ (∀ (st : WebsocketServer) (sf : Nat → Bool) (ws : Nat) (msg : Obj),
        validate msg = .ok →
        lookupHandler st.handlers (jsToString (lookupKey msg "func")) = .missing →
        sf ws = false →
        (st.onMessage sf ws msg).events
          = [.logError "no-such-handler",
             .wsSend ws (wire (errorReplyObj []
               (.vStr (noHandlerErr (jsToString (lookupKey msg "func"))))
               "no-such-handler"))]
        ∧ ∀ k : String, k ≠ "err" → k ≠ "errsrc" →
            lookupKey (wire (errorReplyObj []
              (.vStr (noHandlerErr (jsToString (lookupKey msg "func"))))
              "no-such-handler")) k = .vUndefined) := by
  refine ⟨fun r e d s k hd ht he hs hn =>
      sendReply_passThrough r e d s k hd ht he hs hn,
    fun msg e s k hd he hs hn => errorReply_passThrough msg e s k hd he hs hn,
    fun st sf ws msg hv hh hsf => ⟨?_, fun k he hs => ?_⟩⟩
  · rw [onMessage_noHandler st sf ws msg hv hh]
    simp [sendErrorMessage, sendObjEvents, hsf]
  · have h1 : "err" ≠ k := fun hh => he hh.symm
    have h2 : "errsrc" ≠ k := fun hh => hs hh.symm
    simp [errorReplyObj, delKey, setKey, wire, isUndef, lookupKey, h1, h2]

/-- Witness for C3 (amended) at concrete inputs. -/
theorem c3_passthrough_amended_witness :
    lookupKey (wire ((WebsocketRequest.make
          [("func", .vStr "f"), ("reqId", .vNum 7)] []).send
        (.vStr "e") .vUndefined .vUndefined)) "reqId"
      = lookupKey [("func", .vStr "f"), ("reqId", .vNum 7)] "reqId"
    ∧ lookupKey (wire (errorReplyObj
          [("func", .vStr "f"), ("reqId", .vNum 7)] (.vStr "boom") "msgformat"))
        "reqId"
      = lookupKey [("func", .vStr "f"), ("reqId", .vNum 7)] "reqId"
    ∧ ((plainServer.onMessage sfOk 0
          [("func", .vStr "nope"), ("data", .vObj []), ("reqId", .vNum 7)]).events
        = [.logError "no-such-handler",
           .wsSend 0 (wire (errorReplyObj []
             (.vStr (noHandlerErr (jsToString (lookupKey
               [("func", .vStr "nope"), ("data", .vObj []), ("reqId", .vNum 7)]
               "func")))) "no-such-handler"))]
       ∧ ∀ k : String, k ≠ "err" → k ≠ "errsrc" →
           lookupKey (wire (errorReplyObj []
             (.vStr (noHandlerErr (jsToString (lookupKey
               [("func", .vStr "nope"), ("data", .vObj []), ("reqId", .vNum 7)]
               "func")))) "no-such-handler")) k = .vUndefined) :=
  ⟨c3_passthrough_amended.1 _ (.vStr "e") .vUndefined .vUndefined "reqId"
      (by decide) (by decide) (by decide) (by decide) (by decide),
   c3_passthrough_amended.2.1 _ (.vStr "boom") "msgformat" "reqId"
      (by decide) (by decide) (by decide) (by decide),
   c3_passthrough_amended.2.2 plainServer sfOk 0 _ rfl rfl rfl⟩

/-- C4: after a successful parse, an envelope without a func binding gets
exactly one error reply (errsrc msgformat, the missing-func message) and no
handler is invoked; an envelope with func present but data null/undefined gets
exactly one error reply with errsrc msgformat and no handler is invoked; an
envelope with truthy func and data equal to the empty object passes validation;
and when both checks fail the reply carries the func-failure message. -/
theorem c4_validation_errors :
    (∀ (st : WebsocketServer) (sf : Nat → Bool) (ws : Nat) (msg : Obj),
        sf ws = false → hasKey msg "func" = false →
        (st.onMessage sf ws msg).events
          = [.wsSend ws (wire (errorReplyObj msg (.vStr funcMissingErr) "msgformat")),
             .logError "missing-func"]
        ∧ lookupKey (wire (errorReplyObj msg (.vStr funcMissingErr) "msgformat"))
            "errsrc" = .vStr "msgformat"
        ∧ noHandlerInvoked (st.onMessage sf ws msg).events = true
        ∧ countWsSend (st.onMessage sf ws msg).events = 1)
  ∧ (∀ (st : WebsocketServer) (sf : Nat → Bool) (ws : Nat) (msg : Obj),
        sf ws = false → hasKey msg "func" = true →
        isNil (lookupKey msg "data") = true →
        ∃ (e t : String),
          (st.onMessage sf ws msg).events
            = [.wsSend ws (wire (errorReplyObj msg (.vStr e) "msgformat")),
               .logError t]
          ∧ lookupKey (wire (errorReplyObj msg (.vStr e) "msgformat")) "errsrc"
              = .vStr "msgformat"
          ∧ noHandlerInvoked (st.onMessage sf ws msg).events = true
          ∧ countWsSend (st.onMessage sf ws msg).events = 1)
  ∧ (∀ msg : Obj, truthy (lookupKey msg "func") = true →
        lookupKey msg "data" = .vObj [] → validate msg = .ok)
  ∧ (∀ (st : WebsocketServer) (sf : Nat → Bool) (ws : Nat) (msg : Obj),
        sf ws = false → truthy (lookupKey msg "func") = false →
        isNil (lookupKey msg "data") = true →
        (st.onMessage sf ws msg).events
          = [.wsSend ws (wire (errorReplyObj msg (.vStr funcMissingErr) "msgformat")),
             .logError "missing-func"]
        ∧ lookupKey (wire (errorReplyObj msg (.vStr funcMissingErr) "msgformat"))
            "err" = .vStr funcMissingErr) := by
  refine ⟨fun st sf ws msg hsf hk => ?_, fun st sf ws msg hsf hk hd => ?_,
    fun msg ht hd => ?_, fun st sf ws msg hsf ht hd => ?_⟩
  · have hu : lookupKey msg "func" = .vUndefined := hasKey_false_lookup _ _ hk
    have hval : validate msg = .rejectFunc := by simp [validate, hu, truthy]
    rw [onMessage_rejectFunc st sf ws msg hval]
    exact ⟨by simp [sendErrorMessage, sendObjEvents, hsf],
      errorReply_errsrc _ _ _,
      by simp [sendErrorMessage, sendObjEvents, hsf, noHandlerInvoked],
      by simp [sendErrorMessage, sendObjEvents, hsf, countWsSend]⟩
  · by_cases hft : truthy (lookupKey msg "func") = true
    · have hval : validate msg = .rejectData := by simp [validate, hft, hd]
      rw [onMessage_rejectData st sf ws msg hval]
      exact ⟨dataMissingErr, "missing-data",
        by simp [sendErrorMessage, sendObjEvents, hsf],
        errorReply_errsrc _ _ _,
        by simp [sendErrorMessage, sendObjEvents, hsf, noHandlerInvoked],
        by simp [sendErrorMessage, sendObjEvents, hsf, countWsSend]⟩
    · simp at hft
      have hval : validate msg = .rejectFunc := by simp [validate, hft]
      rw [onMessage_rejectFunc st sf ws msg hval]
      exact ⟨funcMissingErr, "missing-func",
        by simp [sendErrorMessage, sendObjEvents, hsf],
        errorReply_errsrc _ _ _,
        by simp [sendErrorMessage, sendObjEvents, hsf, noHandlerInvoked],
        by simp [sendErrorMessage, sendObjEvents, hsf, countWsSend]⟩
  · simp [validate, ht, hd, isNil]
  · have hval : validate msg = .rejectFunc := by simp [validate, ht]
    rw [onMessage_rejectFunc st sf ws msg hval]
    exact ⟨by simp [sendErrorMessage, sendObjEvents, hsf],
      errorReply_err _ _ _ rfl⟩

/-- Witness for C4 at concrete inputs: an envelope with no func at all, one
with func but null data, one with func and empty-object data, and one with
falsy func and missing data. -/
theorem c4_validation_errors_witness :
    noHandlerInvoked ((plainServer.onMessage sfOk 0 [("data", .vObj [])]).events) = true
    ∧ (∃ (e t : String),
        (plainServer.onMessage sfOk 0 [("func", .vStr "f"), ("data", .vNull)]).events
          = [.wsSend 0 (wire (errorReplyObj [("func", .vStr "f"), ("data", .vNull)]
              (.vStr e) "msgformat")), .logError t]
        ∧ lookupKey (wire (errorReplyObj [("func", .vStr "f"), ("data", .vNull)]
            (.vStr e) "msgformat")) "errsrc" = .vStr "msgformat"
        ∧ noHandlerInvoked ((plainServer.onMessage sfOk 0
            [("func", .vStr "f"), ("data", .vNull)]).events) = true
        ∧ countWsSend ((plainServer.onMessage sfOk 0
            [("func", .vStr "f"), ("data", .vNull)]).events) = 1)
    ∧ validate [("func", .vStr "f"), ("data", .vObj [])] = .ok
    ∧ lookupKey (wire (errorReplyObj [("func", .vStr "")]
        (.vStr funcMissingErr) "msgformat")) "err" = .vStr funcMissingErr :=
  ⟨(c4_validation_errors.1 plainServer sfOk 0 [("data", .vObj [])]
      rfl (by decide)).2.2.1,
   c4_validation_errors.2.1 plainServer sfOk 0 [("func", .vStr "f"), ("data", .vNull)]
      rfl (by decide) (by decide),
   c4_validation_errors.2.2.1 [("func", .vStr "f"), ("data", .vObj [])]
      (by decide) rfl,
   (c4_validation_errors.2.2.2 plainServer sfOk 0 [("func", .vStr "")]
      rfl (by decide) (by decide)).2⟩

/-- Fixture for C5: a callback handler registered under func f. -/
def c5CbHandler : Handler :=
  .callback { name := "f", callback := fun _ => ([], none), acl := .vObj [] }

/-- Fixture for C5: server whose gate rejects every check with reason x. -/
def c5Server : WebsocketServer :=
  { allWS := [0], handlers := [("f", c5CbHandler)]
    checkACL := some (fun _ _ => .rejected (.vStr "x")) }

/-- Fixture for C5: server whose gate resolves every check with no attributes. -/
def c5ServerOk : WebsocketServer :=
  { allWS := [0], handlers := [("f", c5CbHandler)]
    checkACL := some (fun _ _ => .resolved []) }

/-- Fixture for C5: a valid envelope carrying a token. -/
def c5Msg : Obj := [("func", .vStr "f"), ("data", .vObj []), ("token", .vStr "t")]

/-- C5 counterexample: the gate rejects with reason x, and the only reply
carries err = "ACL error: x" rather than the rejection reason x itself, so the
reply does not carry r in err as claimed. -/
theorem c5_acl_counterexample :
    (c5Server.onMessage sfOk 0 c5Msg).events
      = [.aclChecked (.vStr "t") (.vObj []),
         .wsSend 0 [("func", .vStr "f"), ("token", .vStr "t"),
           ("err", .vStr "ACL error: x"), ("errsrc", .vStr "acl")]]
    ∧ (("ACL error: x" == "x") = false) :=
  ⟨rfl, by decide⟩

/-- C5 (amended): with a gate configured, every validated and resolved message
triggers exactly one gate check, with the envelope token and the handler's
access rule, before any handler invocation; a gate rejection with reason r
yields exactly one error reply whose errsrc is acl and whose err is the string
"ACL error: " followed by the string form of r, and the handler is never
invoked; a gate acceptance invokes the handler right after the single check. -/
theorem c5_acl_gate_amended :
    (∀ (st : WebsocketServer) (sf : Nat → Bool) (ws : Nat) (msg : Obj)
        (gate : JsVal → JsVal → AclOutcome) (handler : Handler) (r : JsVal),
        st.checkACL = some gate → validate msg = .ok →
        lookupHandler st.handlers (jsToString (lookupKey msg "func")) = .registered handler →
        gate (lookupKey msg "token") handler.acl = .rejected r → sf ws = false →
        (st.onMessage sf ws msg).events
          = [.aclChecked (lookupKey msg "token") handler.acl,
             .wsSend ws (wire (errorReplyObj msg
               (.vStr ("ACL error: " ++ jsToString r)) "acl"))]
        ∧ lookupKey (wire (errorReplyObj msg
            (.vStr ("ACL error: " ++ jsToString r)) "acl")) "errsrc" = .vStr "acl"
        ∧ lookupKey (wire (errorReplyObj msg
            (.vStr ("ACL error: " ++ jsToString r)) "acl")) "err"
            = .vStr ("ACL error: " ++ jsToString r)
        ∧ noHandlerInvoked (st.onMessage sf ws msg).events = true
        ∧ countWsSend (st.onMessage sf ws msg).events = 1
        ∧ countAclChecked (st.onMessage sf ws msg).events = 1)
  ∧ (∀ (st : WebsocketServer) (sf : Nat → Bool) (ws : Nat) (msg : Obj)
        (gate : JsVal → JsVal → AclOutcome) (handler : Handler) (attrs : Obj),
        st.checkACL = some gate → validate msg = .ok →
        lookupHandler st.handlers (jsToString (lookupKey msg "func")) = .registered handler →
        gate (lookupKey msg "token") handler.acl = .resolved attrs →
        ∃ rest, (st.onMessage sf ws msg).events
            = .aclChecked (lookupKey msg "token") handler.acl
              :: .handlerInvoked handler.name :: rest
          ∧ countAclChecked (st.onMessage sf ws msg).events = 1) := by
  constructor
  · intro st sf ws msg gate handler r hg hv hh hr hsf
    rw [onMessage_aclRejected st sf ws msg gate handler r hv hh hg hr]
    exact ⟨by simp [sendErrorMessage, sendObjEvents, hsf],
      errorReply_errsrc _ _ _,
      errorReply_err _ _ _ rfl,
      by simp [sendErrorMessage, sendObjEvents, hsf, noHandlerInvoked],
      by simp [sendErrorMessage, sendObjEvents, hsf, countWsSend],
      by simp [countAclChecked, countAclChecked_sendErrorMessage]⟩
  · intro st sf ws msg gate handler attrs hg hv hh ha
    rcases ht : (handler.handle sf ws (WebsocketRequest.make msg attrs)).thrown with _ | e
    · rw [onMessage_aclResolved_ok st sf ws msg gate handler attrs hv hh hg ha ht]
      exact ⟨(handler.handle sf ws (WebsocketRequest.make msg attrs)).events, rfl,
        by simp [countAclChecked, countAclChecked_handle]⟩
    · rw [onMessage_aclResolved_thrown st sf ws msg gate handler attrs e hv hh hg ha ht]
      refine ⟨(handler.handle sf ws (WebsocketRequest.make msg attrs)).events
          ++ sendErrorMessage sf ws msg (.vStr ("ACL error: " ++ jsToString e)) "acl",
        by simp, ?_⟩
      simp [countAclChecked_append, countAclChecked, countAclChecked_handle,
        countAclChecked_sendErrorMessage]

/-- Witness for C5 (amended) at the concrete fixtures. -/
theorem c5_acl_gate_amended_witness :
    countAclChecked (c5Server.onMessage sfOk 0 c5Msg).events = 1
    ∧ noHandlerInvoked (c5Server.onMessage sfOk 0 c5Msg).events = true
    ∧ ∃ rest, (c5ServerOk.onMessage sfOk 0 c5Msg).events
        = .aclChecked (lookupKey c5Msg "token") c5CbHandler.acl
          :: .handlerInvoked c5CbHandler.name :: rest
      ∧ countAclChecked (c5ServerOk.onMessage sfOk 0 c5Msg).events = 1 :=
  ⟨(c5_acl_gate_amended.1 c5Server sfOk 0 c5Msg _ c5CbHandler (.vStr "x")
      rfl rfl rfl rfl rfl).2.2.2.2.2,
   (c5_acl_gate_amended.1 c5Server sfOk 0 c5Msg _ c5CbHandler (.vStr "x")
      rfl rfl rfl rfl rfl).2.2.2.1,
   c5_acl_gate_amended.2 c5ServerOk sfOk 0 c5Msg _ c5CbHandler []
      rfl rfl rfl rfl⟩

/-- C6 counterexample: the envelope (func = toString, data = empty object) is
validated and has no registered handler (the registry is empty), yet the
dispatcher sends NO reply at all — in particular no errsrc no-such-handler
reply: the registry read this.handlers["toString"] finds the truthy inherited
Object.prototype.toString, the if (!handler) branch is skipped, and calling
handler.handle throws a TypeError that escapes the message listener. -/
theorem c6_no_such_handler_counterexample :
    (plainServer.onMessage sfOk 0
        [("func", .vStr "toString"), ("data", .vObj [])]).events = []
    ∧ (plainServer.onMessage sfOk 0
        [("func", .vStr "toString"), ("data", .vObj [])]).escaped
        = some inheritedTypeError :=
  ⟨rfl, rfl⟩

/-- C6 (amended): a validated envelope whose func, read as a property key, is
neither a registered handler name nor an Object.prototype property name gets
exactly one error reply, with errsrc no-such-handler and an err message that
embeds the requested func name, and no handler is invoked.  When the func
names an inherited Object.prototype property instead, the no-such-handler
branch is skipped: without a gate, a TypeError escapes the listener and no
reply is sent; with a gate, the TypeError (or the gate rejection) surfaces as
a single errsrc acl reply, and still no handler is invoked. -/
theorem c6_no_such_handler_amended :
    (∀ (st : WebsocketServer) (sf : Nat → Bool) (ws : Nat) (msg : Obj),
        validate msg = .ok →
        lookupHandler st.handlers (jsToString (lookupKey msg "func")) = .missing →
        sf ws = false →
        (st.onMessage sf ws msg).events
          = [.logError "no-such-handler",
             .wsSend ws (wire (errorReplyObj []
               (.vStr (noHandlerErr (jsToString (lookupKey msg "func"))))
               "no-such-handler"))]
        ∧ lookupKey (wire (errorReplyObj []
            (.vStr (noHandlerErr (jsToString (lookupKey msg "func"))))
            "no-such-handler")) "errsrc" = .vStr "no-such-handler"
        ∧ lookupKey (wire (errorReplyObj []
            (.vStr (noHandlerErr (jsToString (lookupKey msg "func"))))
            "no-such-handler")) "err"
            = .vStr (noHandlerErr (jsToString (lookupKey msg "func")))
        ∧ (∃ pre post, noHandlerErr (jsToString (lookupKey msg "func"))
            = pre ++ jsToString (lookupKey msg "func") ++ post)
        ∧ noHandlerInvoked (st.onMessage sf ws msg).events = true
        ∧ countWsSend (st.onMessage sf ws msg).events = 1)
  ∧ (∀ (st : WebsocketServer) (sf : Nat → Bool) (ws : Nat) (msg : Obj),
        validate msg = .ok →
        lookupHandler st.handlers (jsToString (lookupKey msg "func")) = .inherited →
        st.checkACL = none →
        (st.onMessage sf ws msg).events = []
        ∧ (st.onMessage sf ws msg).escaped = some inheritedTypeError)
  ∧ (∀ (st : WebsocketServer) (sf : Nat → Bool) (ws : Nat) (msg : Obj)
        (gate : JsVal → JsVal → AclOutcome),
        validate msg = .ok →
        lookupHandler st.handlers (jsToString (lookupKey msg "func")) = .inherited →
        st.checkACL = some gate → sf ws = false →
        countWsSend (st.onMessage sf ws msg).events = 1
        ∧ noHandlerInvoked (st.onMessage sf ws msg).events = true
        ∧ ∃ e : String,
            (st.onMessage sf ws msg).events
              = [.aclChecked (lookupKey msg "token") .vUndefined,
                 .wsSend ws (wire (errorReplyObj msg
                   (.vStr ("ACL error: " ++ e)) "acl"))]
            ∧ lookupKey (wire (errorReplyObj msg
                (.vStr ("ACL error: " ++ e)) "acl")) "errsrc" = .vStr "acl") := by
  refine ⟨fun st sf ws msg hv hh hsf => ?_, fun st sf ws msg hv hh hg => ?_,
    fun st sf ws msg gate hv hh hg hsf => ?_⟩
  · rw [onMessage_noHandler st sf ws msg hv hh]
    exact ⟨by simp [sendErrorMessage, sendObjEvents, hsf],
      errorReply_errsrc _ _ _,
      errorReply_err _ _ _ rfl,
      ⟨"No handler API.onWSMessage\x27", "\x27 defined!", rfl⟩,
      by simp [sendErrorMessage, sendObjEvents, hsf, noHandlerInvoked],
      by simp [sendErrorMessage, sendObjEvents, hsf, countWsSend]⟩
  · rw [onMessage_inherited_noGate st sf ws msg hv hh hg]
    exact ⟨rfl, rfl⟩
  · rcases hac : gate (lookupKey msg "token") .vUndefined with attrs | r
    · rw [onMessage_inherited_resolved st sf ws msg gate attrs hv hh hg hac]
      exact ⟨by simp [sendErrorMessage, sendObjEvents, hsf, countWsSend],
        by simp [sendErrorMessage, sendObjEvents, hsf, noHandlerInvoked],
        jsToString inheritedTypeError,
        by simp [sendErrorMessage, sendObjEvents, hsf],
        errorReply_errsrc _ _ _⟩
    · rw [onMessage_inherited_rejected st sf ws msg gate r hv hh hg hac]
      exact ⟨by simp [sendErrorMessage, sendObjEvents, hsf, countWsSend],
        by simp [sendErrorMessage, sendObjEvents, hsf, noHandlerInvoked],
        jsToString r,
        by simp [sendErrorMessage, sendObjEvents, hsf],
        errorReply_errsrc _ _ _⟩

/-- Fixture for C6: a gated server with an empty registry. -/
def c6GatedServer : WebsocketServer :=
  { allWS := [0], handlers := [], checkACL := some (fun _ _ => .resolved []) }

/-- Witness for C6 (amended): a genuinely unknown func gets the
no-such-handler reply; the Object.prototype name toString gets no reply
without a gate and a single acl-tagged reply with one. -/
theorem c6_no_such_handler_amended_witness :
    (noHandlerInvoked ((plainServer.onMessage sfOk 0
        [("func", .vStr "ghost"), ("data", .vObj [])]).events) = true
     ∧ countWsSend ((plainServer.onMessage sfOk 0
        [("func", .vStr "ghost"), ("data", .vObj [])]).events) = 1)
    ∧ (plainServer.onMessage sfOk 0
        [("func", .vStr "toString"), ("data", .vObj [])]).escaped
        = some inheritedTypeError
    ∧ countWsSend ((c6GatedServer.onMessage sfOk 0
        [("func", .vStr "toString"), ("data", .vObj [])]).events) = 1 :=
  ⟨⟨(c6_no_such_handler_amended.1 plainServer sfOk 0
      [("func", .vStr "ghost"), ("data", .vObj [])] rfl rfl rfl).2.2.2.2.1,
    (c6_no_such_handler_amended.1 plainServer sfOk 0
      [("func", .vStr "ghost"), ("data", .vObj [])] rfl rfl rfl).2.2.2.2.2⟩,
   (c6_no_such_handler_amended.2.1 plainServer sfOk 0
      [("func", .vStr "toString"), ("data", .vObj [])] rfl rfl rfl).2,
   (c6_no_such_handler_amended.2.2 c6GatedServer sfOk 0
      [("func", .vStr "toString"), ("data", .vObj [])] _ rfl rfl rfl rfl).1⟩

/-- C7: a callback handler that throws synchronously has the exception caught
and logged: handle returns normally (thrown = none) and its trace is exactly
the log line, the callback's own send events, and the exception log line — no
automatic error reply is added; moreover a dispatch that resolves to a
callback handler never lets an exception escape the message listener, so the
processing of later messages is unaffected. -/
theorem c7_callback_exception_safety :
    (∀ (sf : Nat → Bool) (ws : Nat) (ch : CallbackHandler) (req : WebsocketRequest)
        (sends : List SendArgs) (e : JsVal),
        ch.callback req = (sends, some e) →
        (ch.handle sf ws req).thrown = none
        ∧ (ch.handle sf ws req).events
            = .logInfo ch.name :: (sends.map (emitSend sf ws req)).flatten
              ++ [.logError "handler-exception"])
  ∧ (∀ (st : WebsocketServer) (sf : Nat → Bool) (ws : Nat) (msg : Obj)
        (ch : CallbackHandler),
        validate msg = .ok →
        lookupHandler st.handlers (jsToString (lookupKey msg "func"))
          = .registered (.callback ch) →
        (st.onMessage sf ws msg).escaped = none) := by
  constructor
  · intro sf ws ch req sends e hc
    exact ⟨callbackHandle_thrown sf ws ch req,
      by rw [callbackHandle_events sf ws ch req sends (some e) hc]⟩
  · intro st sf ws msg ch hv hh
    rcases hg : st.checkACL with _ | gate
    · rw [onMessage_noGate st sf ws msg (.callback ch) hv hh hg]
      exact callbackHandle_thrown sf ws ch _
    · exact onMessage_gated_escaped st sf ws msg gate (.callback ch) hv hh hg

/-- Fixture for C7: a callback handler that throws without sending. -/
def c7Handler : CallbackHandler :=
  { name := "t", callback := fun _ => ([], some (.vStr "boom")), acl := .vObj [] }

/-- Fixture for C7: a server with only the throwing handler, no gate. -/
def c7Server : WebsocketServer :=
  { allWS := [0], handlers := [("t", .callback c7Handler)], checkACL := none }

/-- Witness for C7 at the throwing fixture. -/
theorem c7_callback_exception_safety_witness :
    ((c7Handler.handle sfOk 0 (WebsocketRequest.make
        [("func", .vStr "t"), ("data", .vObj [])] [])).thrown = none
     ∧ (c7Handler.handle sfOk 0 (WebsocketRequest.make
          [("func", .vStr "t"), ("data", .vObj [])] [])).events
        = .logInfo c7Handler.name
          :: (([] : List SendArgs).map (emitSend sfOk 0 (WebsocketRequest.make
              [("func", .vStr "t"), ("data", .vObj [])] []))).flatten
          ++ [.logError "handler-exception"])
    ∧ (c7Server.onMessage sfOk 0
        [("func", .vStr "t"), ("data", .vObj [])]).escaped = none :=
  ⟨c7_callback_exception_safety.1 sfOk 0 c7Handler _ [] (.vStr "boom") rfl,
   c7_callback_exception_safety.2 c7Server sfOk 0 _ c7Handler rfl rfl⟩

/-- C8: a callback handler that calls send three times produces exactly three
reply envelopes, each constructed only from the stored request template and
that call's own arguments (so repeated send calls cannot interfere with each
other), and each reply carries the request's func and every pass-through
attribute unchanged. -/
theorem c8_three_sends_fresh (msg attrs : Obj) (nm : String) (aclv : JsVal)
    (a1 a2 a3 : SendArgs) (sf : Nat → Bool) (ws : Nat)
    (hsf : sf ws = false) (hn : noUndef msg = true) :
    (CallbackHandler.handle sf ws
        { name := nm, callback := fun _ => ([a1, a2, a3], none), acl := aclv }
        (WebsocketRequest.make msg attrs)).events
      = [.logInfo nm,
         .wsSend ws (wire ((WebsocketRequest.make msg attrs).send
            a1.err a1.dataArg a1.errsrcArg)),
         .wsSend ws (wire ((WebsocketRequest.make msg attrs).send
            a2.err a2.dataArg a2.errsrcArg)),
         .wsSend ws (wire ((WebsocketRequest.make msg attrs).send
            a3.err a3.dataArg a3.errsrcArg))]
    ∧ (∀ a : SendArgs,
        lookupKey (wire ((WebsocketRequest.make msg attrs).send
            a.err a.dataArg a.errsrcArg)) "func" = lookupKey msg "func")
    ∧ (∀ (a : SendArgs) (k : String),
        k ≠ "data" → k ≠ "token" → k ≠ "err" → k ≠ "errsrc" →
        lookupKey (wire ((WebsocketRequest.make msg attrs).send
            a.err a.dataArg a.errsrcArg)) k = lookupKey msg k) := by
  have hpass : ∀ (a : SendArgs) (k : String),
      k ≠ "data" → k ≠ "token" → k ≠ "err" → k ≠ "errsrc" →
      lookupKey (wire ((WebsocketRequest.make msg attrs).send
          a.err a.dataArg a.errsrcArg)) k = lookupKey msg k := by
    intro a k hd ht he hs
    exact sendReply_passThrough (WebsocketRequest.make msg attrs) _ _ _ k
      hd ht he hs hn
  refine ⟨?_,
    fun a => hpass a "func" (by decide) (by decide) (by decide) (by decide), hpass⟩
  rw [callbackHandle_events sf ws _ _ [a1, a2, a3] none rfl]
  simp [emitSend, sendObjEvents, hsf]

/-- Witness for C8 at a concrete request and send arguments. -/
theorem c8_three_sends_fresh_witness :
    lookupKey (wire ((WebsocketRequest.make
        [("func", .vStr "m"), ("data", .vObj []), ("rid", .vNum 1)] []).send
      .vNull .vUndefined .vUndefined)) "func"
      = lookupKey [("func", .vStr "m"), ("data", .vObj []), ("rid", .vNum 1)] "func"
    ∧ lookupKey (wire ((WebsocketRequest.make
        [("func", .vStr "m"), ("data", .vObj []), ("rid", .vNum 1)] []).send
      .vNull .vUndefined .vUndefined)) "rid"
      = lookupKey [("func", .vStr "m"), ("data", .vObj []), ("rid", .vNum 1)] "rid" :=
  ⟨(c8_three_sends_fresh [("func", .vStr "m"), ("data", .vObj []), ("rid", .vNum 1)]
      [] "m" (.vObj []) ⟨.vNull, .vUndefined, .vUndefined⟩
      ⟨.vNull, .vUndefined, .vUndefined⟩ ⟨.vNull, .vUndefined, .vUndefined⟩
      sfOk 0 rfl (by decide)).2.1 ⟨.vNull, .vUndefined, .vUndefined⟩,
   (c8_three_sends_fresh [("func", .vStr "m"), ("data", .vObj []), ("rid", .vNum 1)]
      [] "m" (.vObj []) ⟨.vNull, .vUndefined, .vUndefined⟩
      ⟨.vNull, .vUndefined, .vUndefined⟩ ⟨.vNull, .vUndefined, .vUndefined⟩
      sfOk 0 rfl (by decide)).2.2 ⟨.vNull, .vUndefined, .vUndefined⟩ "rid"
      (by decide) (by decide) (by decide) (by decide)⟩

theorem broadcast_not_mem_aux (l : List Nat) (sf : Nat → Bool) (obj : Obj) (ws : Nat)
    (h : ws ∉ l) :
    ((l.map (fun w => sendObjEvents sf w obj)).flatten).filter (touchesWs ws) = [] := by
  induction l with
  | nil => simp
  | cons x xs ih =>
    simp only [List.mem_cons, not_or] at h
    have hne : ¬(x = ws) := fun hh => h.1 hh.symm
    simp only [List.map_cons, List.flatten_cons, List.filter_append, ih h.2,
      List.append_nil]
    by_cases hx : sf x = true
    · simp [sendObjEvents, hx, touchesWs, hne]
    · simp at hx
      simp [sendObjEvents, hx, touchesWs, hne]

theorem removeFirst_not_mem (l : List Nat) (w : Nat) (h : l.count w ≤ 1) :
    w ∉ WebsocketServer.onClose.removeFirst l w := by
  induction l with
  | nil => simp [WebsocketServer.onClose.removeFirst]
  | cons x xs ih =>
    by_cases hx : x = w
    · subst hx
      rw [WebsocketServer.onClose.removeFirst, if_pos rfl]
      rw [List.count_cons_self] at h
      have hz : xs.count x = 0 := by omega
      exact List.count_eq_zero.mp hz
    · rw [WebsocketServer.onClose.removeFirst, if_neg hx]
      rw [List.count_cons_of_ne (fun hh => hx hh.symm)] at h
      simp only [List.mem_cons, not_or]
      exact ⟨fun hh => hx hh.symm, ih h⟩

/-- C9: broadcast hands the object as-is (no template merging) to every
connection in the live list — delivery to one connection does not depend on
transport failures at the others, which are logged; no event targets a
connection that is not in the live list; and closing a connection removes it
from the live list, so a later broadcast never targets it. -/
theorem c9_broadcast_delivery :
    (∀ (st : WebsocketServer) (sf : Nat → Bool) (obj : Obj) (ws : Nat),
        noUndef obj = true → ws ∈ st.allWS → sf ws = false →
        Event.wsSend ws obj ∈ st.broadcast sf obj)
  ∧ (∀ (st : WebsocketServer) (sf : Nat → Bool) (obj : Obj) (ws : Nat),
        ws ∈ st.allWS → sf ws = true →
        Event.sendFailLog ws ∈ st.broadcast sf obj)
  ∧ (∀ (st : WebsocketServer) (sf : Nat → Bool) (obj : Obj) (ws : Nat),
        ws ∉ st.allWS → (st.broadcast sf obj).filter (touchesWs ws) = [])
  ∧ (∀ (st : WebsocketServer) (ws : Nat), st.allWS.count ws ≤ 1 →
        ws ∉ (st.onClose ws).allWS) := by
  refine ⟨fun st sf obj ws hn hm hsf => ?_, fun st sf obj ws hm hsf => ?_,
    fun st sf obj ws hm => ?_, fun st ws hc => ?_⟩
  · rw [WebsocketServer.broadcast]
    apply List.mem_flatten.mpr
    refine ⟨sendObjEvents sf ws obj, List.mem_map_of_mem _ hm, ?_⟩
    simp [sendObjEvents, hsf, wire_noUndef obj hn]
  · rw [WebsocketServer.broadcast]
    apply List.mem_flatten.mpr
    refine ⟨sendObjEvents sf ws obj, List.mem_map_of_mem _ hm, ?_⟩
    simp [sendObjEvents, hsf]
  · exact broadcast_not_mem_aux st.allWS sf obj ws hm
  · exact removeFirst_not_mem st.allWS ws hc

/-- Fixture for C9: two live connections. -/
def c9Server : WebsocketServer := { allWS := [0, 1], handlers := [], checkACL := none }

/-- Fixture for C9: three live connections. -/
def c9Server3 : WebsocketServer :=
  { allWS := [0, 1, 2], handlers := [], checkACL := none }

/-- Fixture for C9: the broadcast object. -/
def c9Obj : Obj := [("a", .vNum 1)]

/-- Fixture for C9: a transport failing exactly on connection 0. -/
def sfFail0 : Nat → Bool := fun w => w == 0

/-- Witness for C9: with connection 0 failing, connection 1 still receives the
object unmodified, the failure on 0 is logged, no event targets the absent
connection 5, and a closed connection leaves the live list. -/
theorem c9_broadcast_delivery_witness :
    Event.wsSend 1 c9Obj ∈ c9Server.broadcast sfFail0 c9Obj
    ∧ Event.sendFailLog 0 ∈ c9Server.broadcast sfFail0 c9Obj
    ∧ (c9Server.broadcast sfFail0 c9Obj).filter (touchesWs 5) = []
    ∧ 2 ∉ (c9Server3.onClose 2).allWS :=
  ⟨c9_broadcast_delivery.1 c9Server sfFail0 c9Obj 1 (by decide) (by decide) rfl,
   c9_broadcast_delivery.2.1 c9Server sfFail0 c9Obj 0 (by decide) rfl,
   c9_broadcast_delivery.2.2.1 c9Server sfFail0 c9Obj 5 (by decide),
   c9_broadcast_delivery.2.2.2 c9Server3 2 (by decide)⟩

/-- C10: field normalization in WebsocketRequest.send: a falsy err is emitted
as null; a falsy (or omitted) data is emitted as the empty object; the wire
envelope carries an errsrc field exactly when the passed err is non-nil; and
when err is non-nil and errsrc is omitted, errsrc defaults to application. -/
theorem c10_send_normalization (r : WebsocketRequest) (a : SendArgs)
    (hnd : nodupKeys r.originalRequest = true) :
    (truthy a.err = false →
        lookupKey (wire (r.send a.err a.dataArg a.errsrcArg)) "err" = .vNull)
  ∧ (truthy a.dataArg = false →
        lookupKey (wire (r.send a.err a.dataArg a.errsrcArg)) "data" = .vObj [])
  ∧ hasKey (wire (r.send a.err a.dataArg a.errsrcArg)) "errsrc" = !(isNil a.err)
  ∧ (isNil a.err = false → a.errsrcArg = .vUndefined →
        lookupKey (wire (r.send a.err a.dataArg a.errsrcArg)) "errsrc"
          = .vStr "application") := by
  refine ⟨fun hf => ?_, fun hf => ?_, ?_, fun hni hu => ?_⟩
  · have h1 : lookupKey (r.send a.err a.dataArg a.errsrcArg) "err" = .vNull := by
      rw [send_unfold, lookupKey_setKey_ne _ _ _ _ (by decide), lookupKey_setKey_self]
      simp [jsOr, hf]
    rw [lookupKey_wire _ _ (by rw [h1]; rfl), h1]
  · have h1 : lookupKey (r.send a.err a.dataArg a.errsrcArg) "data" = .vObj [] := by
      rw [send_unfold, lookupKey_setKey_ne _ _ _ _ (by decide),
        lookupKey_setKey_ne _ _ _ _ (by decide), lookupKey_setKey_self]
      by_cases hu : isUndef a.dataArg = true
      · simp [hu, jsOr, truthy]
      · simp at hu
        simp [hu, jsOr, hf]
    rw [lookupKey_wire _ _ (by rw [h1]; rfl), h1]
  · by_cases hni : isNil a.err = true
    · have h1 : lookupKey (r.send a.err a.dataArg a.errsrcArg) "errsrc"
          = .vUndefined := by
        rw [send_unfold, lookupKey_setKey_self]
        simp [hni]
      have hndO : nodupKeys (r.send a.err a.dataArg a.errsrcArg) = true := by
        rw [send_unfold]
        exact nodupKeys_setKey _ _ _ (nodupKeys_setKey _ _ _
          (nodupKeys_setKey _ _ _ (nodupKeys_delKey _ _ hnd)))
      rw [hasKey_wire_false _ _ hndO h1, hni]
      rfl
    · simp at hni
      have h2 : isUndef (lookupKey (r.send a.err a.dataArg a.errsrcArg) "errsrc")
          = false := by
        rw [send_unfold, lookupKey_setKey_self, if_neg (by simp [hni])]
        by_cases hu : isUndef a.errsrcArg = true
        · rw [if_pos hu]
          rfl
        · rw [if_neg hu]
          simpa using hu
      rw [hasKey_wire_true _ _ h2, hni]
      rfl
  · have h1 : lookupKey (r.send a.err a.dataArg a.errsrcArg) "errsrc"
        = .vStr "application" := by
      rw [send_unfold, lookupKey_setKey_self]
      simp [hni, hu, isUndef]
    rw [lookupKey_wire _ _ (by rw [h1]; rfl), h1]

/-- Witness for C10 at concrete send calls (an all-falsy call and an
error-carrying call with omitted errsrc). -/
theorem c10_send_normalization_witness :
    lookupKey (wire ((WebsocketRequest.make [("func", .vStr "f")] []).send
        .vNull .vNull .vNull)) "err" = .vNull
    ∧ lookupKey (wire ((WebsocketRequest.make [("func", .vStr "f")] []).send
        .vNull .vNull .vNull)) "data" = .vObj []
    ∧ hasKey (wire ((WebsocketRequest.make [("func", .vStr "f")] []).send
        .vNull .vNull .vNull)) "errsrc" = !(isNil JsVal.vNull)
    ∧ hasKey (wire ((WebsocketRequest.make [("func", .vStr "f")] []).send
        (.vStr "e") .vUndefined .vUndefined)) "errsrc" = !(isNil (JsVal.vStr "e"))
    ∧ lookupKey (wire ((WebsocketRequest.make [("func", .vStr "f")] []).send
        (.vStr "e") .vUndefined .vUndefined)) "errsrc" = .vStr "application" :=
  ⟨(c10_send_normalization (WebsocketRequest.make [("func", .vStr "f")] [])
      ⟨.vNull, .vNull, .vNull⟩ (by decide)).1 rfl,
   (c10_send_normalization (WebsocketRequest.make [("func", .vStr "f")] [])
      ⟨.vNull, .vNull, .vNull⟩ (by decide)).2.1 rfl,
   (c10_send_normalization (WebsocketRequest.make [("func", .vStr "f")] [])
      ⟨.vNull, .vNull, .vNull⟩ (by decide)).2.2.1,
   (c10_send_normalization (WebsocketRequest.make [("func", .vStr "f")] [])
      ⟨.vStr "e", .vUndefined, .vUndefined⟩ (by decide)).2.2.1,
   (c10_send_normalization (WebsocketRequest.make [("func", .vStr "f")] [])
      ⟨.vStr "e", .vUndefined, .vUndefined⟩ (by decide)).2.2.2 rfl rfl⟩

end RfApiWebsocket
